import Mathlib

/-!
Verification of the `bluetooth-classic` SPP session library.

The development shallowly embeds the Rust sources:
  * `src/common/mac.rs`      — MAC address codec (`mac_u64_to_string`, `mac_string_to_u64`);
  * `src/common/device.rs`   — `BluetoothDevice`, `SPP_UUID`;
  * `src/lib.rs`             — `BluetoothError` taxonomy;
  * `src/windows/session.rs` — `WinrtSession`: the connect pipeline
    (`connect_by_uuid_async`), the timeout wrapper (`connect_by_uuid_timeout`)
    and the poll-based stream adapter (`poll_read` / `poll_write`);
  * `src/mock/session.rs`    — `MockSession`, the in-memory test double.

WinRT capability calls are modelled by an oracle record (`WinrtProvider`,
`ReadEnv`, `WriteEnv`): each native call's outcome for the run under scrutiny
is a field, given in the exact program order of the source.  A fallible WinRT
call `core::Result<T>` becomes `Except String T` (the `String` is the
diagnostic wrapped into `RuntimeError` by `winrt_error_wrap`); the two failure
points of an async call (start and await) are collapsed into one, which is
faithful because every call site of `winrt_async*` maps both to the same
error.  A Rust `panic!` (from `.unwrap()`) is a distinguished outcome.
-/

namespace BluetoothClassic

/-- `BluetoothError` from `src/lib.rs`.  `Duration` is modelled as a `Nat`
(e.g. a count of milliseconds); `TimedOut` carries it, `RuntimeError` carries
the provider's diagnostic text. -/
inductive BluetoothError where
  | permissionDenied
  | deviceNotFound
  | deviceNotPairing
  | serviceNotFound
  | notConnected
  | timedOut (d : Nat)
  | runtimeError (msg : String)
deriving DecidableEq

/-- `BluetoothDevice` from `src/common/device.rs`: a display name and a
48-bit address held in a `u64`. -/
structure BluetoothDevice where
  name : String
  addr : Nat
deriving DecidableEq

/-- The 128-bit standard SPP UUID `00001101-0000-1000-8000-00805F9B34FB`
from `src/common/device.rs`, as a number. -/
def SPP_UUID : Nat := 0x0000110100001000800000805F9B34FB

/-- Outcome of one run of `connect_by_uuid_async`: success, a classified
error, or a Rust panic (the source's `.unwrap()` calls). -/
inductive ConnectResult where
  | ok
  | err (e : BluetoothError)
  | panics
deriving DecidableEq

/-- Oracle for one run of the WinRT connect pipeline: the outcome of each
native call of `WinrtSession::connect_by_uuid_async`
(`src/windows/session.rs:106-236`), listed in program order.  `Except.ok`
values whose payloads the source never inspects are collapsed to `Unit`. -/
structure WinrtProvider where
  /-- `GetDeviceSelectorFromBluetoothAddress(addr)` (session.rs:122). -/
  getDeviceSelector : Except String Unit
  /-- `DeviceInformation::FindAllAsyncAqsFilter` start + await (session.rs:127). -/
  findAllDevices : Except String Unit
  /-- `winrt_device_list.Size()` (session.rs:133). -/
  deviceListSize : Except String Nat
  /-- `winrt_device_list.GetAt(0)` (session.rs:141). -/
  deviceGetAt : Except String Unit
  /-- `device_info.Id()` (session.rs:148). -/
  deviceInfoId : Except String Unit
  /-- `BluetoothDevice::FromIdAsync` start + await (session.rs:146). -/
  deviceFromId : Except String Unit
  /-- `winrt_device.DeviceInformation()` (session.rs:158). -/
  deviceInformation : Except String Unit
  /-- `info.Pairing()` (session.rs:164). -/
  pairingInfo : Except String Unit
  /-- `pairing.CanPair()` (session.rs:166). -/
  canPair : Except String Bool
  /-- `pairing.IsPaired()` (session.rs:168). -/
  isPaired : Except String Bool
  /-- `pairing.Custom()` (session.rs:173). -/
  customPairing : Except String Unit
  /-- `custom.PairingRequested(handler)` registration (session.rs:179). -/
  pairingRequested : Except String Unit
  /-- `custom.PairAsync(ConfirmOnly)` start + await (session.rs:185). -/
  pairAsync : Except String Unit
  /-- `custom.RemovePairingRequested(handler)` (session.rs:192). -/
  removePairing : Except String Unit
  /-- `create_service_id(uuid)` (session.rs:200). -/
  createServiceId : Except String Unit
  /-- `GetRfcommServicesForIdAsync` start + await (session.rs:203). -/
  getRfcommServices : Except String Unit
  /-- `winrt_service_list.Services()` (session.rs:210). -/
  servicesList : Except String Unit
  /-- `list_services.Size()` (session.rs:215). -/
  servicesSize : Except String Nat
  /-- `list_services.GetAt(0)` (session.rs:221). -/
  serviceGetAt : Except String Unit
  /-- `StreamSocket::new()` (session.rs:224). -/
  newSocket : Except String Unit
  /-- `winrt_service.ConnectionHostName()` (session.rs:228). -/
  connectionHostName : Except String Unit
  /-- `winrt_service.ConnectionServiceName()` (session.rs:229). -/
  connectionServiceName : Except String Unit
  /-- `socket.ConnectAsync` start + await (session.rs:227). -/
  connectAsync : Except String Unit

/-- Device-resolution stage of `connect_by_uuid_async`
(session.rs:120-153).  The selector wrapping uses plain `winrt_error_wrap`
(`RuntimeError`); every other failure of the stage maps to `DeviceNotFound`
via the `*_with_error` wrappers. -/
def resolve_stage (p : WinrtProvider) : Except BluetoothError Unit :=
  match p.getDeviceSelector with
  | .error e => .error (.runtimeError e)
  | .ok _ =>
    match p.findAllDevices with
    | .error _ => .error .deviceNotFound
    | .ok _ =>
      match p.deviceListSize with
      | .error _ => .error .deviceNotFound
      | .ok n =>
        if n < 1 then .error .deviceNotFound
        else
          match p.deviceGetAt with
          | .error _ => .error .deviceNotFound
          | .ok _ =>
            match p.deviceInfoId with
            | .error _ => .error .deviceNotFound
            | .ok _ =>
              match p.deviceFromId with
              | .error _ => .error .deviceNotFound
              | .ok _ => .ok ()

/-- Pairing stage of `connect_by_uuid_async` (session.rs:156-197), executed
only when `need_pairing` is true.  All calls map their failures to
`DeviceNotPairing` via `*_with_error` — except `PairAsync`, which goes
through plain `winrt_async` (session.rs:185) and therefore yields
`RuntimeError` with the provider's message. -/
def pairing_stage (p : WinrtProvider) : Except BluetoothError Unit :=
  match p.deviceInformation with
  | .error _ => .error .deviceNotPairing
  | .ok _ =>
    match p.pairingInfo with
    | .error _ => .error .deviceNotPairing
    | .ok _ =>
      match p.canPair with
      | .error _ => .error .deviceNotPairing
      | .ok cp =>
        match p.isPaired with
        | .error _ => .error .deviceNotPairing
        | .ok ip =>
          if cp && !ip then
            match p.customPairing with
            | .error _ => .error .deviceNotPairing
            | .ok _ =>
              match p.pairingRequested with
              | .error _ => .error .deviceNotPairing
              | .ok _ =>
                match p.pairAsync with
                | .error msg => .error (.runtimeError msg)
                | .ok _ =>
                  match p.removePairing with
                  | .error _ => .error .deviceNotPairing
                  | .ok _ => .ok ()
          else .ok ()

/-- Service-resolution stage of `connect_by_uuid_async` (session.rs:199-221).
Note: the source maps a failure of `list_services.Size()` to
`DeviceNotFound` (session.rs:215), unlike every other call of the stage. -/
def service_stage (p : WinrtProvider) : Except BluetoothError Unit :=
  match p.createServiceId with
  | .error e => .error (.runtimeError e)
  | .ok _ =>
    match p.getRfcommServices with
    | .error _ => .error .serviceNotFound
    | .ok _ =>
      match p.servicesList with
      | .error _ => .error .serviceNotFound
      | .ok _ =>
        match p.servicesSize with
        | .error _ => .error .deviceNotFound
        | .ok n =>
          if n < 1 then .error .serviceNotFound
          else
            match p.serviceGetAt with
            | .error _ => .error .serviceNotFound
            | .ok _ => .ok ()

/-- Socket-connect stage of `connect_by_uuid_async` (session.rs:223-231).
`ConnectionHostName()` and `ConnectionServiceName()` are `.unwrap()`ed in
the source: a failure of either is a panic, not a returned error. -/
def socket_stage (p : WinrtProvider) : ConnectResult :=
  match p.newSocket with
  | .error e => .err (.runtimeError e)
  | .ok _ =>
    match p.connectionHostName with
    | .error _ => .panics
    | .ok _ =>
      match p.connectionServiceName with
      | .error _ => .panics
      | .ok _ =>
        match p.connectAsync with
        | .error e => .err (.runtimeError e)
        | .ok _ => .ok

/-- The full pipeline of `connect_by_uuid_async` (session.rs:106-236),
sequencing the four stages and short-circuiting on the first failure. -/
def connect_pipeline (needPairing : Bool) (p : WinrtProvider) : ConnectResult :=
  match resolve_stage p with
  | .error e => .err e
  | .ok _ =>
    match (if needPairing then pairing_stage p else .ok ()) with
    | .error e => .err e
    | .ok _ =>
      match service_stage p with
      | .error e => .err e
      | .ok _ => socket_stage p

/-- The mutable fields of `WinrtSession` (session.rs:33-41).  The socket
handle itself is opaque to the model; the pending-operation slots
`read_future` / `write_future` are modelled by occupancy (`Option Unit`). -/
structure WinrtSessionState where
  uuid : Nat
  deviceName : String
  deviceAddr : Nat
  ready : Bool
  readFuture : Option Unit
  writeFuture : Option Unit
deriving DecidableEq

/-- `WinrtSession::connect_by_uuid_async` (session.rs:106-236): first resets
the session (socket close, device/uuid update, `ready = false`, both
pending-operation slots dropped, session.rs:112-118), then runs the pipeline;
`ready` is set to `true` only at the very end of a fully successful run
(session.rs:233). -/
def connect_by_uuid_async (s : WinrtSessionState) (device : BluetoothDevice)
    (uuid : Nat) (needPairing : Bool) (p : WinrtProvider) :
    WinrtSessionState × ConnectResult :=
  let s' : WinrtSessionState :=
    { s with deviceName := device.name, deviceAddr := device.addr,
             uuid := uuid, ready := false,
             readFuture := none, writeFuture := none }
  match connect_pipeline needPairing p with
  | .ok => ({ s' with ready := true }, .ok)
  | r => (s', r)

/-- `WinrtSession::connect_by_uuid_timeout` (session.rs:81-104): races the
pipeline against a `tokio::time::timeout` timer.  `timerFirst = true` means
the timer elapsed before the pipeline future completed; the source then maps
the `Elapsed` error to `TimedOut(timeout)`, and otherwise unwraps the
pipeline's own result via the `if let Err / if let Ok(Err)` cascade.  A
pipeline panic unwinds through `block_on` and is never seen by the cascade. -/
def connect_by_uuid_timeout (s : WinrtSessionState) (device : BluetoothDevice)
    (uuid : Nat) (needPairing : Bool) (timeout : Nat) (p : WinrtProvider)
    (timerFirst : Bool) : ConnectResult :=
  let result : Option ConnectResult :=
    if timerFirst then none
    else some (connect_by_uuid_async s device uuid needPairing p).2
  match result with
  | none => .err (.timedOut timeout)
  | some (.err e) => .err e
  | some r => r

/-- `WinrtSession::connect_timeout` (session.rs:61-68): delegates to
`connect_by_uuid_timeout` with the default `SPP_UUID`. -/
def connect_timeout (s : WinrtSessionState) (device : BluetoothDevice)
    (needPairing : Bool) (timeout : Nat) (p : WinrtProvider)
    (timerFirst : Bool) : ConnectResult :=
  connect_by_uuid_timeout s device SPP_UUID needPairing timeout p timerFirst

/-! ### The poll-based stream adapter -/

instance {ε α : Type} [DecidableEq ε] [DecidableEq α] : DecidableEq (Except ε α)
  | .error x, .error y =>
      if h : x = y then .isTrue (by rw [h])
      else .isFalse (by intro hc; cases hc; exact h rfl)
  | .error _, .ok _ => .isFalse (by intro h; cases h)
  | .ok _, .error _ => .isFalse (by intro h; cases h)
  | .ok x, .ok y =>
      if h : x = y then .isTrue (by rw [h])
      else .isFalse (by intro hc; cases hc; exact h rfl)

/-- What polling the stored in-flight WinRT read future observes during one
`poll_read` call: still pending, `Ready(Err(_))`, or `Ready(Ok(buffer))`
followed by the outcome of `read_input_buffer` on that buffer. -/
inductive ReadOpOutcome where
  | pending
  | failed
  | completed (bufRead : Except Unit (List Nat))
deriving DecidableEq

/-- Oracle for one `poll_read` call (session.rs:257-349): outcomes of
`socket.InputStream()`, `Buffer::Create`, `stream.ReadAsync` (the start
call), and of polling the in-flight future. -/
structure ReadEnv where
  inputStream : Bool
  bufferCreate : Bool
  readAsyncStart : Bool
  opOutcome : ReadOpOutcome
deriving DecidableEq

/-- Result of one `poll_read` call: `Pending`, or `Ready(Ok(()))` together
with the bytes copied into the caller's buffer. -/
inductive ReadPoll where
  | pending
  | ready (bytes : List Nat)
deriving DecidableEq

/-- The tail of `poll_read` (session.rs:316-346): polling whatever future is
now stored in the slot.  On `Ready(Ok)` the slot is cleared and, if
`read_input_buffer` succeeds, the bytes are returned; on its failure the
session is degraded.  On `Ready(Err)` the slot is cleared and the session
degraded.  `started` records whether this very call started the native
operation. -/
def read_op_poll (s : WinrtSessionState) (started : Bool) (env : ReadEnv) :
    WinrtSessionState × ReadPoll × Bool :=
  match env.opOutcome with
  | .pending => (s, .pending, started)
  | .failed => ({ s with readFuture := none, ready := false }, .pending, started)
  | .completed (.error _) =>
      ({ s with readFuture := none, ready := false }, .pending, started)
  | .completed (.ok bytes) =>
      ({ s with readFuture := none }, .ready bytes, started)

/-- `WinrtSession::poll_read` (session.rs:257-349).  `bufRemaining` is
`buf.remaining()`.  The third component reports whether a native `ReadAsync`
was started by this call. -/
def poll_read (s : WinrtSessionState) (bufRemaining : Nat) (env : ReadEnv) :
    WinrtSessionState × ReadPoll × Bool :=
  if s.ready = false then
    ({ s with readFuture := none }, .pending, false)
  else if bufRemaining = 0 then
    (s, .ready [], false)
  else if s.readFuture = none then
    if env.inputStream = false then ({ s with ready := false }, .pending, false)
    else if env.bufferCreate = false then ({ s with ready := false }, .pending, false)
    else if env.readAsyncStart = false then ({ s with ready := false }, .pending, false)
    else read_op_poll { s with readFuture := some () } true env
  else read_op_poll s false env

/-- What polling the stored in-flight WinRT write future observes during one
`poll_write` call. -/
inductive WriteOpOutcome where
  | pending
  | failed
  | completed (written : Nat)
deriving DecidableEq

/-- Oracle for one `poll_write` call (session.rs:353-422): outcomes of
`socket.OutputStream()`, `write_output_buffer`, `stream.WriteAsync` (the
start call), and of polling the in-flight future. -/
structure WriteEnv where
  outputStream : Bool
  writeBuffer : Bool
  writeAsyncStart : Bool
  opOutcome : WriteOpOutcome
deriving DecidableEq

/-- Result of one `poll_write` call: `Pending`, or `Ready(Ok(count))`. -/
inductive WritePoll where
  | pending
  | ready (written : Nat)
deriving DecidableEq

/-- The tail of `poll_write` (session.rs:404-419): polling whatever future is
now stored in the slot. -/
def write_op_poll (s : WinrtSessionState) (started : Bool) (env : WriteEnv) :
    WinrtSessionState × WritePoll × Bool :=
  match env.opOutcome with
  | .pending => (s, .pending, started)
  | .failed => ({ s with writeFuture := none, ready := false }, .pending, started)
  | .completed n => ({ s with writeFuture := none }, .ready n, started)

/-- `WinrtSession::poll_write` (session.rs:353-422).  `bufLen` is
`buf.len()`.  The third component reports whether a native `WriteAsync` was
started by this call. -/
def poll_write (s : WinrtSessionState) (bufLen : Nat) (env : WriteEnv) :
    WinrtSessionState × WritePoll × Bool :=
  if s.ready = false then
    ({ s with writeFuture := none }, .pending, false)
  else if bufLen = 0 then
    (s, .ready 0, false)
  else if s.writeFuture = none then
    if env.outputStream = false then ({ s with ready := false }, .pending, false)
    else if env.writeBuffer = false then ({ s with ready := false }, .pending, false)
    else if env.writeAsyncStart = false then ({ s with ready := false }, .pending, false)
    else write_op_poll { s with writeFuture := some () } true env
  else write_op_poll s false env

/-- One scheduler step on a session: a `poll_read` or a `poll_write` with its
buffer size and native-call oracle. -/
inductive PollStep where
  | read (n : Nat) (env : ReadEnv)
  | write (n : Nat) (env : WriteEnv)

/-- State reached after one poll step. -/
def applyPoll (s : WinrtSessionState) : PollStep → WinrtSessionState
  | .read n env => (poll_read s n env).1
  | .write n env => (poll_write s n env).1

/-- State reached after a whole interleaving of poll steps. -/
def runPolls (s : WinrtSessionState) (steps : List PollStep) : WinrtSessionState :=
  steps.foldl applyPoll s

/-! ### The in-memory test double (`src/mock/session.rs`) -/

/-- The fields of `MockSession` (mock/session.rs:11-19). -/
structure MockState where
  uuid : Nat
  deviceName : String
  deviceAddr : Nat
  need_pairing : Bool
  blocked : Bool
  buffer : List Nat
  position : Nat
  is_ready : Bool
deriving DecidableEq

/-- `MockSession::new` (mock/session.rs:22-32). -/
def MockState.new : MockState :=
  { uuid := SPP_UUID, deviceName := "", deviceAddr := 0,
    need_pairing := true, blocked := false,
    buffer := [], position := 0, is_ready := false }

/-- `MockSession::connect_by_uuid_async` (mock/session.rs:89-104): records
the attempted device, uuid and pairing flag, then loops (10 ms sleeps) while
`blocked` holds.  `blocked` cannot change during the call (the session is
exclusively borrowed), so a blocked connect never completes: the model
returns `none` for divergence. -/
def mock_connect_by_uuid_async (m : MockState) (device : BluetoothDevice)
    (uuid : Nat) (needPairing : Bool) :
    Option (MockState × Except BluetoothError Unit) :=
  let m' : MockState :=
    { m with deviceName := device.name, deviceAddr := device.addr,
             uuid := uuid, need_pairing := needPairing }
  if m'.blocked then none else some (m', .ok ())

/-- `MockSession::connect_by_uuid_timeout` (mock/session.rs:64-87): the same
timer race and result cascade as the WinRT session.  A pipeline that never
completes (`none`) can only be exited by the timer, yielding `TimedOut`. -/
def mock_connect_by_uuid_timeout (m : MockState) (device : BluetoothDevice)
    (uuid : Nat) (needPairing : Bool) (timeout : Nat) (timerFirst : Bool) :
    Except BluetoothError Unit :=
  let result : Option (Except BluetoothError Unit) :=
    if timerFirst then none
    else (mock_connect_by_uuid_async m device uuid needPairing).map Prod.snd
  match result with
  | none => .error (.timedOut timeout)
  | some (.error e) => .error e
  | some (.ok _) => .ok ()

/-- `MockSession::poll_read` (mock/session.rs:125-142): when `is_ready`, all
bytes from `position` on are copied out and `position` advances by their
count; otherwise `is_ready` is set, the waker is signalled and `Pending`
returned. -/
def mock_poll_read (m : MockState) : MockState × ReadPoll :=
  if m.is_ready then
    let data := m.buffer.drop m.position
    ({ m with position := m.position + data.length }, .ready data)
  else
    ({ m with is_ready := true }, .pending)

/-- `MockSession::poll_write` (mock/session.rs:146-154): appends the bytes to
the internal buffer and reports them all written. -/
def mock_poll_write (m : MockState) (buf : List Nat) : MockState × WritePoll :=
  ({ m with buffer := m.buffer ++ buf }, .ready buf.length)

/-! ### The MAC address codec (`src/common/mac.rs`) -/

/-- The uppercase hexadecimal alphabet, as produced by Rust's `{:02X}`. -/
def UPPER_HEX : List Char :=
  ['0', '1', '2', '3', '4', '5', '6', '7', '8', '9', 'A', 'B', 'C', 'D', 'E', 'F']

/-- The digit character `{:X}` prints for a value below 16. -/
def hexDigit (n : Nat) : Char := UPPER_HEX.getD n '0'

/-- `format!("{:02X}", b)` for a byte `b < 256`: exactly two uppercase hex
digits. -/
def toHex2 (b : Nat) : List Char := [hexDigit (b / 16), hexDigit (b % 16)]

/-- `u64::to_be_bytes`: the eight big-endian bytes of a 64-bit value. -/
def beBytes8 (n : Nat) : List Nat :=
  [n / 2 ^ 56 % 256, n / 2 ^ 48 % 256, n / 2 ^ 40 % 256, n / 2 ^ 32 % 256,
   n / 2 ^ 24 % 256, n / 2 ^ 16 % 256, n / 2 ^ 8 % 256, n % 256]

/-- `mac_u64_to_string` (common/mac.rs:1-12): big-endian bytes, skip 2,
take 6, format each as `{:02X}`, join with `":"`.  Strings are modelled as
`List Char`; the `u64` domain as reduction modulo `2 ^ 64`. -/
def mac_u64_to_string (addr : Nat) : List Char :=
  List.intercalate [':'] ((((beBytes8 (addr % 2 ^ 64)).drop 2).take 6).map toHex2)

/-- The value of one character as a radix-16 digit, as accepted by
`u64::from_str_radix(_, 16)`: `0-9`, `a-f` and `A-F`. -/
def hexVal (c : Char) : Option Nat :=
  if '0' ≤ c ∧ c ≤ '9' then some (c.toNat - Char.toNat '0')
  else if 'a' ≤ c ∧ c ≤ 'f' then some (c.toNat - Char.toNat 'a' + 10)
  else if 'A' ≤ c ∧ c ≤ 'F' then some (c.toNat - Char.toNat 'A' + 10)
  else none

/-- `u64::from_str_radix(s, 16)`: an optional leading `+`, then at least one
hex digit, value below `2 ^ 64` (the accumulation is monotone, so checking
the final value is equivalent to Rust's per-step overflow check). -/
def fromStrRadix16 (s : List Char) : Option Nat :=
  let digits : List Char := match s with
    | c :: rest => if c = '+' then rest else s
    | [] => s
  if digits = [] then none
  else
    match digits.foldl
        (fun acc c =>
          match acc, hexVal c with
          | some a, some d => some (a * 16 + d)
          | _, _ => none)
        (some 0) with
    | none => none
    | some v => if v < 2 ^ 64 then some v else none

/-- `mac_string_to_u64` (common/mac.rs:14-24): split on `':'` and re-join
(i.e. delete every colon), require exactly 12 remaining characters, parse as
radix-16. -/
def mac_string_to_u64 (s : List Char) : Option Nat :=
  let cleaned := s.filter (fun c => c != ':')
  if cleaned.length ≠ 12 then none
  else fromStrRadix16 cleaned

/-- A two-character uppercase-hexadecimal octet, the building block of the
spec's canonical MAC string form. -/
def isMacOctet (p : List Char) : Bool :=
  p.length = 2 && p.all (fun c => UPPER_HEX.contains c)

/-! ### Concrete fixtures used by witnesses and counterexamples -/

/-- An empty device, as built by `BluetoothDevice::empty()`. -/
def dev0 : BluetoothDevice := { name := "", addr := 0 }

/-- A fresh session, as built by `WinrtSession::new()`. -/
def initState : WinrtSessionState :=
  { uuid := SPP_UUID, deviceName := "", deviceAddr := 0,
    ready := false, readFuture := none, writeFuture := none }

/-- A connected session with no in-flight operations. -/
def sReady : WinrtSessionState := { initState with ready := true }

/-- A connected session with an in-flight read and an in-flight write. -/
def sReadyInflight : WinrtSessionState :=
  { sReady with readFuture := some (), writeFuture := some () }

/-- A degraded session that still holds an in-flight read. -/
def sNotReadyInflight : WinrtSessionState := { initState with readFuture := some () }

/-- Read oracle: every start call succeeds, the in-flight op stays pending. -/
def envPending : ReadEnv :=
  { inputStream := true, bufferCreate := true, readAsyncStart := true,
    opOutcome := .pending }

/-- Read oracle: the in-flight op completes with `Ready(Err(_))`. -/
def envFailed : ReadEnv := { envPending with opOutcome := .failed }

/-- Write oracle: every start call succeeds, the in-flight op stays pending. -/
def wenvPending : WriteEnv :=
  { outputStream := true, writeBuffer := true, writeAsyncStart := true,
    opOutcome := .pending }

/-- Write oracle: the in-flight op completes with `Ready(Err(_))`. -/
def wenvFailed : WriteEnv := { wenvPending with opOutcome := .failed }

/-- A provider for which every native call succeeds (one device, one
service, pairable and not yet paired). -/
def okProvider : WinrtProvider :=
  { getDeviceSelector := .ok (), findAllDevices := .ok (), deviceListSize := .ok 1,
    deviceGetAt := .ok (), deviceInfoId := .ok (), deviceFromId := .ok (),
    deviceInformation := .ok (), pairingInfo := .ok (), canPair := .ok true,
    isPaired := .ok false, customPairing := .ok (), pairingRequested := .ok (),
    pairAsync := .ok (), removePairing := .ok (), createServiceId := .ok (),
    getRfcommServices := .ok (), servicesList := .ok (), servicesSize := .ok 1,
    serviceGetAt := .ok (), newSocket := .ok (), connectionHostName := .ok (),
    connectionServiceName := .ok (), connectAsync := .ok () }

/-! ### C1 — the timeout race -/

/-- C1: whenever the timer fires before the connection pipeline completes,
`connect_by_uuid_timeout` (and `connect_timeout`, and the mock's timeout
wrapper) returns `TimedOut` carrying exactly the given duration, for every
session, device, uuid, pairing flag and provider behaviour; and whenever the
pipeline completes first, the pipeline's own result is returned unchanged. -/
theorem C1_connect_timeout_race (s : WinrtSessionState) (device : BluetoothDevice)
    (uuid : Nat) (needPairing : Bool) (t : Nat) (p : WinrtProvider)
    (m : MockState) (timerFirst : Bool) :
    (timerFirst = true →
      connect_by_uuid_timeout s device uuid needPairing t p timerFirst
          = .err (.timedOut t)
        ∧ connect_timeout s device needPairing t p timerFirst = .err (.timedOut t)
        ∧ mock_connect_by_uuid_timeout m device uuid needPairing t timerFirst
          = .error (.timedOut t))
    ∧ (timerFirst = false →
      connect_by_uuid_timeout s device uuid needPairing t p timerFirst
          = (connect_by_uuid_async s device uuid needPairing p).2
        ∧ connect_timeout s device needPairing t p timerFirst
          = (connect_by_uuid_async s device SPP_UUID needPairing p).2
        ∧ (m.blocked = false →
            mock_connect_by_uuid_timeout m device uuid needPairing t timerFirst
              = .ok ())) := by
  constructor
  · intro h
    subst h
    exact ⟨rfl, rfl, rfl⟩
  · intro h
    subst h
    refine ⟨?_, ?_, ?_⟩
    · simp only [connect_by_uuid_timeout, if_neg Bool.false_ne_true]
      cases hr : (connect_by_uuid_async s device uuid needPairing p).2 <;> simp [hr]
    · simp only [connect_timeout, connect_by_uuid_timeout, if_neg Bool.false_ne_true]
      cases hr : (connect_by_uuid_async s device SPP_UUID needPairing p).2 <;> simp [hr]
    · intro hb
      simp [mock_connect_by_uuid_timeout, mock_connect_by_uuid_async, hb]

/-- Concrete instance of the timeout race: both branches, exercised on the
fixture provider and a fresh mock. -/
theorem C1_connect_timeout_race_witness :
    connect_by_uuid_timeout initState dev0 SPP_UUID false 1000 okProvider true
        = .err (.timedOut 1000)
      ∧ connect_timeout initState dev0 false 1000 okProvider true
        = .err (.timedOut 1000)
      ∧ mock_connect_by_uuid_timeout MockState.new dev0 SPP_UUID false 1000 true
        = .error (.timedOut 1000) :=
  (C1_connect_timeout_race initState dev0 SPP_UUID false 1000 okProvider
    MockState.new true).1 rfl

/-! ### C3 — polling while not ready -/

/-- C3: a `poll_read` on a session whose readiness flag is false yields
`Pending`, starts no native read operation, and leaves no in-flight read
stored (a previously stored pending read is discarded); the mock's
`poll_read` likewise yields `Pending` and starts nothing when its readiness
flag is false. -/
theorem C3_poll_read_not_ready (s : WinrtSessionState) (n : Nat) (env : ReadEnv)
    (m : MockState) (hs : s.ready = false) (hm : m.is_ready = false) :
    poll_read s n env = ({ s with readFuture := none }, .pending, false)
    ∧ mock_poll_read m = ({ m with is_ready := true }, .pending) := by
  constructor
  · simp [poll_read, hs]
  · simp [mock_poll_read, hm]

/-- Concrete instance: a not-ready session holding a stale in-flight read. -/
theorem C3_poll_read_not_ready_witness :
    poll_read sNotReadyInflight 4 envPending
        = ({ sNotReadyInflight with readFuture := none }, .pending, false)
      ∧ mock_poll_read MockState.new
        = ({ MockState.new with is_ready := true }, .pending) :=
  C3_poll_read_not_ready sNotReadyInflight 4 envPending MockState.new rfl rfl

/-! ### C10 — zero-length fast paths -/

/-- C10: on a ready session, a `poll_read` whose caller buffer has no
remaining capacity returns `Ready(Ok(()))` at once — no native operation is
started and the whole state, stored pending read included, is untouched —
and a `poll_write` of an empty slice likewise returns `Ready(Ok(0))`. -/
theorem C10_zero_length_polls (s : WinrtSessionState) (env : ReadEnv)
    (wenv : WriteEnv) (h : s.ready = true) :
    poll_read s 0 env = (s, .ready [], false)
    ∧ poll_write s 0 wenv = (s, .ready 0, false) := by
  constructor
  · simp [poll_read, h]
  · simp [poll_write, h]

/-- Concrete instance: the fast paths on a ready session that also holds
in-flight operations (which are left in place). -/
theorem C10_zero_length_polls_witness :
    poll_read sReadyInflight 0 envPending = (sReadyInflight, .ready [], false)
    ∧ poll_write sReadyInflight 0 wenvPending = (sReadyInflight, .ready 0, false) :=
  C10_zero_length_polls sReadyInflight envPending wenvPending rfl

/-! ### C7 — the service-resolution stage's error classification -/

/-- C7 (code bug): on a provider run where every native call succeeds except
the service list's `Size()` accessor, `connect_by_uuid_async` returns
`DeviceNotFound` — the source passes `BluetoothError::DeviceNotFound` to the
wrapper at session.rs:215 — although the spec classifies every failure of
the service-resolution stage as `ServiceNotFound`.  The neighbouring paths
conform: a failing service query, `Services()` accessor or `GetAt(0)`
accessor, and an empty list, all yield `ServiceNotFound`. -/
theorem C7_services_size_error_misclassified :
    (connect_by_uuid_async initState dev0 SPP_UUID false
        { okProvider with servicesSize := .error ("size accessor failed") }).2
      = .err .deviceNotFound
    ∧ (.err BluetoothError.deviceNotFound : ConnectResult) ≠ .err .serviceNotFound
    ∧ (connect_by_uuid_async initState dev0 SPP_UUID false
        { okProvider with getRfcommServices := .error ("query failed") }).2
      = .err .serviceNotFound
    ∧ (connect_by_uuid_async initState dev0 SPP_UUID false
        { okProvider with servicesList := .error ("list accessor failed") }).2
      = .err .serviceNotFound
    ∧ (connect_by_uuid_async initState dev0 SPP_UUID false
        { okProvider with servicesSize := .ok 0 }).2
      = .err .serviceNotFound
    ∧ (connect_by_uuid_async initState dev0 SPP_UUID false
        { okProvider with serviceGetAt := .error ("get failed") }).2
      = .err .serviceNotFound := by
  refine ⟨rfl, ?_, rfl, rfl, rfl, rfl⟩
  intro h
  cases h

/-! ### C8 — panic-freedom of the public entry points -/

/-- C8 (code bug): on a provider run where every native call succeeds except
`ConnectionHostName()` (resp. `ConnectionServiceName()`), the connect
pipeline panics — the source calls `.unwrap()` on both accessors
(session.rs:228-229) — instead of returning an `ErrorKind` as the spec
requires of every public entry point. -/
theorem C8_service_name_unwrap_panics :
    (connect_by_uuid_async initState dev0 SPP_UUID false
        { okProvider with connectionHostName := .error ("no host name") }).2
      = .panics
    ∧ (connect_by_uuid_async initState dev0 SPP_UUID false
        { okProvider with connectionServiceName := .error ("no service name") }).2
      = .panics
    ∧ (connect_by_uuid_async initState dev0 SPP_UUID false okProvider).2 = .ok :=
  ⟨rfl, rfl, rfl⟩

/-! ### C2 — the pairing stage's error classification -/

/-- C2 counterexample: with `need_pairing = true`, a pairable and not yet
paired device, and a provider whose `PairAsync` flow fails while every other
call succeeds, `connect_by_uuid_async` returns `RuntimeError` with the
provider's message — session.rs:185 wraps `PairAsync` in plain `winrt_async`
— and not `DeviceNotPairing` as the claim states. -/
theorem C2_pairAsync_failure_counterexample :
    (connect_by_uuid_async initState dev0 SPP_UUID true
        { okProvider with pairAsync := .error ("pairing flow failed") }).2
      = .err (.runtimeError ("pairing flow failed"))
    ∧ (.err (.runtimeError ("pairing flow failed")) : ConnectResult)
        ≠ .err .deviceNotPairing := by
  refine ⟨rfl, ?_⟩
  intro h
  cases h

/-- C2 (amended): with `need_pairing = true` and the device-resolution stage
succeeding, a failure of the pairing-capability queries, of the pairing
handler registration, or of the handler removal makes `connect_by_uuid_async`
return `DeviceNotPairing`; a failure of the `PairAsync` pairing flow itself
instead returns `RuntimeError` carrying the provider's message. -/
theorem C2_pairing_stage_classification (p : WinrtProvider)
    (s : WinrtSessionState) (device : BluetoothDevice) (uuid : Nat)
    (hres : resolve_stage p = .ok ()) :
    (∀ msg, p.deviceInformation = .error msg →
      (connect_by_uuid_async s device uuid true p).2 = .err .deviceNotPairing)
    ∧ (∀ msg, p.deviceInformation = .ok () → p.pairingInfo = .error msg →
      (connect_by_uuid_async s device uuid true p).2 = .err .deviceNotPairing)
    ∧ (∀ msg, p.deviceInformation = .ok () → p.pairingInfo = .ok () →
      p.canPair = .error msg →
      (connect_by_uuid_async s device uuid true p).2 = .err .deviceNotPairing)
    ∧ (∀ msg cp, p.deviceInformation = .ok () → p.pairingInfo = .ok () →
      p.canPair = .ok cp → p.isPaired = .error msg →
      (connect_by_uuid_async s device uuid true p).2 = .err .deviceNotPairing)
    ∧ (∀ msg, p.deviceInformation = .ok () → p.pairingInfo = .ok () →
      p.canPair = .ok true → p.isPaired = .ok false →
      p.customPairing = .error msg →
      (connect_by_uuid_async s device uuid true p).2 = .err .deviceNotPairing)
    ∧ (∀ msg, p.deviceInformation = .ok () → p.pairingInfo = .ok () →
      p.canPair = .ok true → p.isPaired = .ok false →
      p.customPairing = .ok () → p.pairingRequested = .error msg →
      (connect_by_uuid_async s device uuid true p).2 = .err .deviceNotPairing)
    ∧ (∀ msg, p.deviceInformation = .ok () → p.pairingInfo = .ok () →
      p.canPair = .ok true → p.isPaired = .ok false →
      p.customPairing = .ok () → p.pairingRequested = .ok () →
      p.pairAsync = .error msg →
      (connect_by_uuid_async s device uuid true p).2 = .err (.runtimeError msg))
    ∧ (∀ msg, p.deviceInformation = .ok () → p.pairingInfo = .ok () →
      p.canPair = .ok true → p.isPaired = .ok false →
      p.customPairing = .ok () → p.pairingRequested = .ok () →
      p.pairAsync = .ok () → p.removePairing = .error msg →
      (connect_by_uuid_async s device uuid true p).2 = .err .deviceNotPairing) := by
  refine ⟨?_, ?_, ?_, ?_, ?_, ?_, ?_, ?_⟩ <;>
    · intros
      simp_all [connect_by_uuid_async, connect_pipeline, pairing_stage]

/-- Concrete instance: every pairing-stage call of the fixture provider in
turn replaced by a failure, with the device-resolution hypothesis
discharged on the fixture. -/
theorem C2_pairing_stage_classification_witness :
    (connect_by_uuid_async initState dev0 SPP_UUID true
        { okProvider with pairingRequested := .error ("handler failed") }).2
      = .err .deviceNotPairing
    ∧ (connect_by_uuid_async initState dev0 SPP_UUID true
        { okProvider with pairAsync := .error ("flow failed") }).2
      = .err (.runtimeError ("flow failed"))
    ∧ (connect_by_uuid_async initState dev0 SPP_UUID true
        { okProvider with removePairing := .error ("remove failed") }).2
      = .err .deviceNotPairing :=
  ⟨(C2_pairing_stage_classification
      { okProvider with pairingRequested := .error ("handler failed") }
      initState dev0 SPP_UUID rfl).2.2.2.2.2.1
      ("handler failed") rfl rfl rfl rfl rfl rfl,
   (C2_pairing_stage_classification
      { okProvider with pairAsync := .error ("flow failed") }
      initState dev0 SPP_UUID rfl).2.2.2.2.2.2.1
      ("flow failed") rfl rfl rfl rfl rfl rfl rfl,
   (C2_pairing_stage_classification
      { okProvider with removePairing := .error ("remove failed") }
      initState dev0 SPP_UUID rfl).2.2.2.2.2.2.2
      ("remove failed") rfl rfl rfl rfl rfl rfl rfl rfl⟩

/-! ### C4 — readiness monotonicity -/

/-- One poll step never raises the readiness flag. -/
lemma applyPoll_ready_mono (s : WinrtSessionState) (st : PollStep) :
    (applyPoll s st).ready = true → s.ready = true := by
  intro h
  by_cases hr : s.ready = true
  · exact hr
  · have hr' : s.ready = false := by
      cases hb : s.ready
      · rfl
      · exact absurd hb hr
    exfalso
    cases st with
    | read n env => simp [applyPoll, poll_read, hr'] at h
    | write n env => simp [applyPoll, poll_write, hr'] at h

/-- No interleaving of poll steps raises the readiness flag. -/
lemma runPolls_ready_mono (steps : List PollStep) (s : WinrtSessionState) :
    (runPolls s steps).ready = true → s.ready = true := by
  induction steps generalizing s with
  | nil => exact fun h => h
  | cons st rest ih =>
      intro h
      exact applyPoll_ready_mono s st (ih (applyPoll s st) h)

/-- C4: the readiness flag transitions monotonically under any sequence of
`poll_read` / `poll_write` calls — no poll ever sets it from false to true;
a poll that observes its in-flight read or write operation fail clears it
before returning; and a connect attempt leaves it true exactly when the
whole pipeline succeeded. -/
theorem C4_readiness_monotone :
    (∀ (s : WinrtSessionState) (steps : List PollStep),
      (runPolls s steps).ready = true → s.ready = true)
    ∧ (∀ (s : WinrtSessionState) (n : Nat) (env : ReadEnv),
      s.ready = true → s.readFuture = some () → n ≠ 0 →
      (env.opOutcome = .failed ∨ env.opOutcome = .completed (.error ())) →
      (poll_read s n env).1.ready = false)
    ∧ (∀ (s : WinrtSessionState) (n : Nat) (env : WriteEnv),
      s.ready = true → s.writeFuture = some () → n ≠ 0 →
      env.opOutcome = .failed →
      (poll_write s n env).1.ready = false)
    ∧ (∀ (s : WinrtSessionState) (device : BluetoothDevice) (uuid : Nat)
        (np : Bool) (p : WinrtProvider),
      (connect_by_uuid_async s device uuid np p).1.ready = true ↔
        (connect_by_uuid_async s device uuid np p).2 = .ok) := by
  refine ⟨fun s steps => runPolls_ready_mono steps s, ?_, ?_, ?_⟩
  · intro s n env hr hf hn hout
    rcases hout with h | h <;>
      simp [poll_read, read_op_poll, hr, hf, hn, h]
  · intro s n env hr hf hn hout
    simp [poll_write, write_op_poll, hr, hf, hn, hout]
  · intro s device uuid np p
    unfold connect_by_uuid_async
    cases hc : connect_pipeline np p <;> simp [hc]

/-- Concrete instance: a two-step interleaving that ends ready started
ready; a failing in-flight read and a failing in-flight write each clear
readiness; the fixture provider's successful run leaves the session ready. -/
theorem C4_readiness_monotone_witness :
    ((runPolls sReadyInflight [.read 4 envPending, .write 4 wenvPending]).ready = true →
      sReadyInflight.ready = true)
    ∧ (poll_read sReadyInflight 4 envFailed).1.ready = false
    ∧ (poll_write sReadyInflight 4 wenvFailed).1.ready = false
    ∧ ((connect_by_uuid_async initState dev0 SPP_UUID true okProvider).1.ready = true ↔
        (connect_by_uuid_async initState dev0 SPP_UUID true okProvider).2 = .ok) :=
  ⟨C4_readiness_monotone.1 sReadyInflight [.read 4 envPending, .write 4 wenvPending],
   C4_readiness_monotone.2.1 sReadyInflight 4 envFailed rfl rfl (by decide) (Or.inl rfl),
   C4_readiness_monotone.2.2.1 sReadyInflight 4 wenvFailed rfl rfl (by decide) rfl,
   C4_readiness_monotone.2.2.2 initState dev0 SPP_UUID true okProvider⟩

/-! ### C5 — at most one in-flight operation per direction -/

/-- C5 counterexample: a poll on a not-ready session that still holds an
in-flight read clears the pending-operation slot even though the operation
had no terminal completion — it is not even polled (its outcome this round
is `pending`), yet the slot is emptied.  This refutes "the slot is cleared
exactly once on that operation's terminal completion". -/
theorem C5_discard_without_completion_counterexample :
    sNotReadyInflight.readFuture = some ()
    ∧ envPending.opOutcome = .pending
    ∧ poll_read sNotReadyInflight 4 envPending
        = ({ sNotReadyInflight with readFuture := none }, .pending, false) :=
  ⟨rfl, rfl, rfl⟩

/-- How `read_op_poll` treats the slot: left alone while the operation is
still pending, cleared on any terminal completion; the started flag passes
through. -/
lemma read_op_poll_slot (s : WinrtSessionState) (b : Bool) (env : ReadEnv) :
    (read_op_poll s b env).1.readFuture
      = (if env.opOutcome = .pending then s.readFuture else none)
    ∧ (read_op_poll s b env).2.2 = b := by
  rcases ho : env.opOutcome with _ | _ | (u | bytes) <;> simp [read_op_poll, ho]

/-- How `write_op_poll` treats the slot. -/
lemma write_op_poll_slot (s : WinrtSessionState) (b : Bool) (env : WriteEnv) :
    (write_op_poll s b env).1.writeFuture
      = (if env.opOutcome = .pending then s.writeFuture else none)
    ∧ (write_op_poll s b env).2.2 = b := by
  rcases ho : env.opOutcome with _ | _ | k <;> simp [write_op_poll, ho]

/-- `poll_read` on a ready session with an occupied slot and nonzero
capacity only drives the stored operation. -/
lemma poll_read_inflight (s : WinrtSessionState) (n : Nat) (env : ReadEnv)
    (hr : s.ready = true) (hf : s.readFuture = some ()) (hz : n ≠ 0) :
    poll_read s n env = read_op_poll s false env := by
  simp [poll_read, hr, hf, hz]

/-- `poll_write` on a ready session with an occupied slot and nonzero
buffer only drives the stored operation. -/
lemma poll_write_inflight (s : WinrtSessionState) (n : Nat) (env : WriteEnv)
    (hr : s.ready = true) (hf : s.writeFuture = some ()) (hz : n ≠ 0) :
    poll_write s n env = write_op_poll s false env := by
  simp [poll_write, hr, hf, hz]

/-- Characterization of a `poll_read` that starts a native operation: the
session was ready with an empty slot, the capacity nonzero, all three start
calls succeeded, and the rest of the poll drives the freshly stored
operation. -/
lemma poll_read_start_char (s : WinrtSessionState) (n : Nat) (env : ReadEnv) :
    (poll_read s n env).2.2 = true →
      s.ready = true ∧ s.readFuture = none ∧ n ≠ 0
      ∧ poll_read s n env = read_op_poll { s with readFuture := some () } true env := by
  intro h
  by_cases hr : s.ready = true
  · by_cases hz : n = 0
    · exfalso
      simp [poll_read, hr, hz] at h
    · by_cases hf : s.readFuture = none
      · cases h1 : env.inputStream
        · exfalso
          simp [poll_read, hr, hz, hf, h1] at h
        · cases h2 : env.bufferCreate
          · exfalso
            simp [poll_read, hr, hz, hf, h1, h2] at h
          · cases h3 : env.readAsyncStart
            · exfalso
              simp [poll_read, hr, hz, hf, h1, h2, h3] at h
            · exact ⟨hr, hf, hz, by simp [poll_read, hr, hz, hf, h1, h2, h3]⟩
      · exfalso
        rcases hn : s.readFuture with _ | ⟨⟩
        · exact hf hn
        · rw [poll_read_inflight s n env hr hn hz,
            (read_op_poll_slot s false env).2] at h
          exact Bool.false_ne_true h
  · have hr' : s.ready = false := by simpa using hr
    exfalso
    simp [poll_read, hr'] at h

/-- Characterization of a `poll_write` that starts a native operation. -/
lemma poll_write_start_char (s : WinrtSessionState) (n : Nat) (env : WriteEnv) :
    (poll_write s n env).2.2 = true →
      s.ready = true ∧ s.writeFuture = none ∧ n ≠ 0
      ∧ poll_write s n env = write_op_poll { s with writeFuture := some () } true env := by
  intro h
  by_cases hr : s.ready = true
  · by_cases hz : n = 0
    · exfalso
      simp [poll_write, hr, hz] at h
    · by_cases hf : s.writeFuture = none
      · cases h1 : env.outputStream
        · exfalso
          simp [poll_write, hr, hz, hf, h1] at h
        · cases h2 : env.writeBuffer
          · exfalso
            simp [poll_write, hr, hz, hf, h1, h2] at h
          · cases h3 : env.writeAsyncStart
            · exfalso
              simp [poll_write, hr, hz, hf, h1, h2, h3] at h
            · exact ⟨hr, hf, hz, by simp [poll_write, hr, hz, hf, h1, h2, h3]⟩
      · exfalso
        rcases hn : s.writeFuture with _ | ⟨⟩
        · exact hf hn
        · rw [poll_write_inflight s n env hr hn hz,
            (write_op_poll_slot s false env).2] at h
          exact Bool.false_ne_true h
  · have hr' : s.ready = false := by simpa using hr
    exfalso
    simp [poll_write, hr'] at h

/-- C5 (amended): under any interleaving at most one native operation per
direction is outstanding — a new native read (resp. write) is started only
when the session is ready and the read (resp. write) pending-operation slot
is empty, and an occupied slot driven by a poll (whether the operation was
stored earlier or started by this very call) is cleared exactly on the
operation's terminal completion (success or failure); a poll on a not-ready
session instead discards the slot without completion. -/
theorem C5_single_inflight (s : WinrtSessionState) (n : Nat) (env : ReadEnv)
    (wenv : WriteEnv) :
    ((poll_read s n env).2.2 = true → s.readFuture = none ∧ s.ready = true)
    ∧ (s.ready = true → s.readFuture = some () → n ≠ 0 →
      ((poll_read s n env).1.readFuture = none ↔ env.opOutcome ≠ .pending))
    ∧ ((poll_read s n env).2.2 = true →
      ((poll_read s n env).1.readFuture = none ↔ env.opOutcome ≠ .pending))
    ∧ (s.ready = false → (poll_read s n env).1.readFuture = none)
    ∧ ((poll_write s n wenv).2.2 = true → s.writeFuture = none ∧ s.ready = true)
    ∧ (s.ready = true → s.writeFuture = some () → n ≠ 0 →
      ((poll_write s n wenv).1.writeFuture = none ↔ wenv.opOutcome ≠ .pending))
    ∧ ((poll_write s n wenv).2.2 = true →
      ((poll_write s n wenv).1.writeFuture = none ↔ wenv.opOutcome ≠ .pending))
    ∧ (s.ready = false → (poll_write s n wenv).1.writeFuture = none) := by
  refine ⟨?_, ?_, ?_, ?_, ?_, ?_, ?_, ?_⟩
  · intro h
    obtain ⟨hr, hf, -, -⟩ := poll_read_start_char s n env h
    exact ⟨hf, hr⟩
  · intro hr hf hz
    rw [poll_read_inflight s n env hr hf hz, (read_op_poll_slot s false env).1]
    by_cases ho : env.opOutcome = .pending
    · simp [ho, hf]
    · simp [ho]
  · intro h
    obtain ⟨-, -, -, heq⟩ := poll_read_start_char s n env h
    rw [heq, (read_op_poll_slot { s with readFuture := some () } true env).1]
    by_cases ho : env.opOutcome = .pending
    · simp [ho]
    · simp [ho]
  · intro hr
    simp [poll_read, hr]
  · intro h
    obtain ⟨hr, hf, -, -⟩ := poll_write_start_char s n wenv h
    exact ⟨hf, hr⟩
  · intro hr hf hz
    rw [poll_write_inflight s n wenv hr hf hz, (write_op_poll_slot s false wenv).1]
    by_cases ho : wenv.opOutcome = .pending
    · simp [ho, hf]
    · simp [ho]
  · intro h
    obtain ⟨-, -, -, heq⟩ := poll_write_start_char s n wenv h
    rw [heq, (write_op_poll_slot { s with writeFuture := some () } true wenv).1]
    by_cases ho : wenv.opOutcome = .pending
    · simp [ho]
    · simp [ho]
  · intro hr
    simp [poll_write, hr]

/-- Concrete instance: an in-flight read of a ready session is not cleared
while pending, and the not-ready discard path empties the slot. -/
theorem C5_single_inflight_witness :
    ((poll_read sReadyInflight 4 envPending).1.readFuture = none ↔
      envPending.opOutcome ≠ .pending)
    ∧ (poll_read sNotReadyInflight 4 envPending).1.readFuture = none
    ∧ ((poll_write sReadyInflight 4 wenvFailed).1.writeFuture = none ↔
      wenvFailed.opOutcome ≠ .pending) :=
  ⟨(C5_single_inflight sReadyInflight 4 envPending wenvPending).2.1 rfl rfl (by decide),
   (C5_single_inflight sNotReadyInflight 4 envPending wenvPending).2.2.2.1 rfl,
   (C5_single_inflight sReadyInflight 4 envPending wenvFailed).2.2.2.2.2.1
     rfl rfl (by decide)⟩

/-! ### C9 — the in-memory test double's end-to-end scenario -/

/-- C9 counterexample: a connect on a fresh mock with `need_pairing = false`
and no blocking succeeds, but it leaves the double's readiness flag
`is_ready` at `false` — `MockSession::connect_by_uuid_async`
(mock/session.rs:89-104) never touches `is_ready`, which becomes true only
at the first read (or flush) poll.  This refutes "returns Ok and leaves the
session Ready". -/
theorem C9_connect_leaves_mock_not_ready :
    (mock_connect_by_uuid_async MockState.new dev0 SPP_UUID false).map
        (fun r => (r.1.is_ready, r.2)) = some (false, .ok ()) := rfl

/-- C9 (amended): a connect with `need_pairing = false` and no blocking
configured returns Ok, leaving the double's `is_ready` flag untouched (it is
set only by the first read poll, which therefore yields `Pending` once); and
after writing `[1,2,3]` via the write path, reading via the read path
returns exactly `[1,2,3]` — in general, on a double that has consumed its
buffer, any written byte sequence is echoed back in order by the following
reads. -/
theorem C9_mock_echo :
    (∃ m1, mock_connect_by_uuid_async MockState.new dev0 SPP_UUID false
          = some (m1, .ok ())
        ∧ m1.is_ready = false
        ∧ (mock_poll_write m1 [1, 2, 3]).2 = .ready 3
        ∧ (mock_poll_read (mock_poll_write m1 [1, 2, 3]).1).2 = .pending
        ∧ (mock_poll_read
            (mock_poll_read (mock_poll_write m1 [1, 2, 3]).1).1).2
          = .ready [1, 2, 3])
    ∧ (∀ (m : MockState) (bs : List Nat), m.position = m.buffer.length →
        (mock_poll_write m bs).2 = .ready bs.length
        ∧ (m.is_ready = true →
            (mock_poll_read (mock_poll_write m bs).1).2 = .ready bs)
        ∧ (m.is_ready = false →
            (mock_poll_read (mock_poll_write m bs).1).2 = .pending
            ∧ (mock_poll_read
                (mock_poll_read (mock_poll_write m bs).1).1).2 = .ready bs)) := by
  constructor
  · exact ⟨{ MockState.new with need_pairing := false }, rfl, rfl, rfl, rfl, rfl⟩
  · intro m bs hpos
    have hdrop : (m.buffer ++ bs).drop m.position = bs := by
      rw [hpos]
      exact List.drop_left m.buffer bs
    refine ⟨rfl, ?_, ?_⟩
    · intro hready
      simp [mock_poll_read, mock_poll_write, hready, hdrop]
    · intro hready
      refine ⟨?_, ?_⟩
      · simp [mock_poll_read, mock_poll_write, hready]
      · simp [mock_poll_read, mock_poll_write, hready, hdrop]

/-- Concrete instance: the echo on a fresh double (empty consumed buffer,
not yet ready). -/
theorem C9_mock_echo_witness :
    (mock_poll_write MockState.new [9, 8]).2 = .ready 2
    ∧ ((mock_poll_read (mock_poll_write MockState.new [9, 8]).1).2 = .pending
      ∧ (mock_poll_read
          (mock_poll_read (mock_poll_write MockState.new [9, 8]).1).1).2
        = .ready [9, 8]) :=
  ⟨(C9_mock_echo.2 MockState.new [9, 8] rfl).1,
   (C9_mock_echo.2 MockState.new [9, 8] rfl).2.2 rfl⟩

/-! ### C6 — the MAC address codec round-trip -/

/-- A list of length two is literally a pair. -/
lemma list_len_two {α : Type} : ∀ l : List α, l.length = 2 → ∃ a b, l = [a, b]
  | [a, b], _ => ⟨a, b, rfl⟩
  | [], h => by simp at h
  | [_], h => by simp at h
  | _ :: _ :: _ :: _, h => by simp at h

/-- A list of length six is literally a six-tuple. -/
lemma list_len_six {α : Type} : ∀ l : List α, l.length = 6 →
    ∃ a b c d e f, l = [a, b, c, d, e, f]
  | [a, b, c, d, e, f], _ => ⟨a, b, c, d, e, f, rfl⟩
  | [], h => by simp at h
  | [_], h => by simp at h
  | [_, _], h => by simp at h
  | [_, _, _], h => by simp at h
  | [_, _, _, _], h => by simp at h
  | [_, _, _, _, _], h => by simp at h
  | _ :: _ :: _ :: _ :: _ :: _ :: _ :: _, h => by simp at h

/-- Every uppercase hex digit character parses under `hexVal` to a value
below 16 that `hexDigit` prints back, and is neither a colon nor a plus. -/
lemma upper_hex_spec : ∀ c ∈ UPPER_HEX,
    hexVal c = some ((hexVal c).getD 0)
    ∧ (hexVal c).getD 0 < 16
    ∧ hexDigit ((hexVal c).getD 0) = c
    ∧ c ≠ ':' ∧ c ≠ '+' := by decide

/-- `hexDigit` stays within the uppercase hex alphabet below 16. -/
lemma hexDigit_mem : ∀ n < 16, hexDigit n ∈ UPPER_HEX := by decide

/-- An octet of the canonical MAC form is two uppercase hex characters
carrying a byte value that `toHex2` prints back. -/
lemma macOctet_byte (p : List Char) (h : isMacOctet p = true) :
    ∃ x y a b, p = [x, y] ∧ hexVal x = some a ∧ hexVal y = some b
      ∧ a < 16 ∧ b < 16 ∧ x ≠ ':' ∧ y ≠ ':' ∧ x ≠ '+'
      ∧ toHex2 (a * 16 + b) = [x, y] := by
  have h' : p.length = 2 ∧ ∀ c ∈ p, c ∈ UPPER_HEX := by simpa [isMacOctet] using h
  obtain ⟨hlen, hall⟩ := h'
  obtain ⟨x, y, rfl⟩ := list_len_two p hlen
  obtain ⟨hvx, hax, hdx, hcx, hpx⟩ := upper_hex_spec x (hall x (by simp))
  obtain ⟨hvy, hay, hdy, hcy, hpy⟩ := upper_hex_spec y (hall y (by simp))
  refine ⟨x, y, (hexVal x).getD 0, (hexVal y).getD 0, rfl, hvx, hvy, hax, hay,
    hcx, hcy, hpx, ?_⟩
  have e1 : ((hexVal x).getD 0 * 16 + (hexVal y).getD 0) / 16
      = (hexVal x).getD 0 := by omega
  have e2 : ((hexVal x).getD 0 * 16 + (hexVal y).getD 0) % 16
      = (hexVal y).getD 0 := by omega
  simp only [toHex2, e1, e2, hdx, hdy]

/-- `toHex2` of a byte is a canonical octet. -/
lemma isMacOctet_toHex2 (b : Nat) (hb : b < 256) : isMacOctet (toHex2 b) = true := by
  have h1 : b / 16 < 16 := by omega
  have h2 : b % 16 < 16 := by omega
  simp [isMacOctet, toHex2, hexDigit_mem _ h1, hexDigit_mem _ h2]

/-- C6: for every valid MAC string — six colon-separated two-character
uppercase-hexadecimal octets — `mac_string_to_u64` returns a 48-bit value
that `mac_u64_to_string` prints back to exactly the original string; and for
every value, the string `mac_u64_to_string` produces consists of six
colon-separated two-character uppercase-hexadecimal octets. -/
theorem C6_mac_roundtrip :
    (∀ parts : List (List Char), parts.length = 6 →
      (∀ p ∈ parts, isMacOctet p = true) →
      ∃ v, mac_string_to_u64 (List.intercalate [':'] parts) = some v
        ∧ v < 2 ^ 48
        ∧ mac_u64_to_string v = List.intercalate [':'] parts)
    ∧ (∀ addr : Nat, ∃ parts : List (List Char),
        parts.length = 6 ∧ (∀ p ∈ parts, isMacOctet p = true)
        ∧ mac_u64_to_string addr = List.intercalate [':'] parts) := by
  constructor
  · intro parts h6 hoct
    obtain ⟨p1, p2, p3, p4, p5, p6, rfl⟩ := list_len_six parts h6
    obtain ⟨x1, y1, a1, b1, rfl, hv1, hv2, ha1, hb1, hc1, hc2, hp1, hx1⟩ :=
      macOctet_byte p1 (hoct p1 (by simp))
    obtain ⟨x2, y2, a2, b2, rfl, hv3, hv4, ha2, hb2, hc3, hc4, hp2, hx2⟩ :=
      macOctet_byte p2 (hoct p2 (by simp))
    obtain ⟨x3, y3, a3, b3, rfl, hv5, hv6, ha3, hb3, hc5, hc6, hp3, hx3⟩ :=
      macOctet_byte p3 (hoct p3 (by simp))
    obtain ⟨x4, y4, a4, b4, rfl, hv7, hv8, ha4, hb4, hc7, hc8, hp4, hx4⟩ :=
      macOctet_byte p4 (hoct p4 (by simp))
    obtain ⟨x5, y5, a5, b5, rfl, hv9, hv10, ha5, hb5, hc9, hc10, hp5, hx5⟩ :=
      macOctet_byte p5 (hoct p5 (by simp))
    obtain ⟨x6, y6, a6, b6, rfl, hv11, hv12, ha6, hb6, hc11, hc12, hp6, hx6⟩ :=
      macOctet_byte p6 (hoct p6 (by simp))
    set V : Nat := a1 * 2 ^ 44 + b1 * 2 ^ 40 + a2 * 2 ^ 36 + b2 * 2 ^ 32
      + a3 * 2 ^ 28 + b3 * 2 ^ 24 + a4 * 2 ^ 20 + b4 * 2 ^ 16
      + a5 * 2 ^ 12 + b5 * 2 ^ 8 + a6 * 2 ^ 4 + b6 with hVdef
    have hflat : List.intercalate [':']
        [[x1, y1], [x2, y2], [x3, y3], [x4, y4], [x5, y5], [x6, y6]]
        = [x1, y1, ':', x2, y2, ':', x3, y3, ':', x4, y4, ':', x5, y5, ':', x6, y6] :=
      rfl
    have hfilter : ([x1, y1, ':', x2, y2, ':', x3, y3, ':', x4, y4, ':',
        x5, y5, ':', x6, y6]).filter (fun c => c != ':')
        = [x1, y1, x2, y2, x3, y3, x4, y4, x5, y5, x6, y6] := by
      simp [List.filter_cons, hc1, hc2, hc3, hc4, hc5, hc6, hc7, hc8, hc9,
        hc10, hc11, hc12]
    have hfold : List.foldl (fun acc c =>
        match acc, hexVal c with
        | some a, some d => some (a * 16 + d)
        | _, _ => none) (some 0)
        [x1, y1, x2, y2, x3, y3, x4, y4, x5, y5, x6, y6] = some V := by
      simp only [List.foldl_cons, List.foldl_nil, hv1, hv2, hv3, hv4, hv5, hv6,
        hv7, hv8, hv9, hv10, hv11, hv12]
      congr 1
      rw [hVdef]
      ring
    have hkey : mac_string_to_u64 (List.intercalate [':']
        [[x1, y1], [x2, y2], [x3, y3], [x4, y4], [x5, y5], [x6, y6]]) = some V := by
      rw [hflat]
      simp only [mac_string_to_u64, hfilter]
      rw [if_neg (by simp)]
      simp only [fromStrRadix16]
      rw [if_neg hp1]
      rw [if_neg (by simp)]
      rw [hfold]
      show (if V < 2 ^ 64 then some V else none) = some V
      rw [if_pos (show V < 2 ^ 64 by omega)]
    have hmod : V % 2 ^ 64 = V := Nat.mod_eq_of_lt (by omega)
    have e1 : V / 2 ^ 40 % 256 = a1 * 16 + b1 := by omega
    have e2 : V / 2 ^ 32 % 256 = a2 * 16 + b2 := by omega
    have e3 : V / 2 ^ 24 % 256 = a3 * 16 + b3 := by omega
    have e4 : V / 2 ^ 16 % 256 = a4 * 16 + b4 := by omega
    have e5 : V / 2 ^ 8 % 256 = a5 * 16 + b5 := by omega
    have e6 : V % 256 = a6 * 16 + b6 := by omega
    have hstr : mac_u64_to_string V
        = [x1, y1, ':', x2, y2, ':', x3, y3, ':', x4, y4, ':', x5, y5, ':', x6, y6] := by
      show List.intercalate [':']
        ((((beBytes8 (V % 2 ^ 64)).drop 2).take 6).map toHex2) = _
      rw [hmod]
      show List.intercalate [':']
        [toHex2 (V / 2 ^ 40 % 256), toHex2 (V / 2 ^ 32 % 256),
         toHex2 (V / 2 ^ 24 % 256), toHex2 (V / 2 ^ 16 % 256),
         toHex2 (V / 2 ^ 8 % 256), toHex2 (V % 256)] = _
      rw [e1, e2, e3, e4, e5, e6, hx1, hx2, hx3, hx4, hx5, hx6]
      exact hflat
    refine ⟨V, hkey, by omega, ?_⟩
    rw [hflat]
    exact hstr
  · intro addr
    refine ⟨(((beBytes8 (addr % 2 ^ 64)).drop 2).take 6).map toHex2, ?_, ?_, rfl⟩
    · simp [beBytes8]
    · intro p hp
      simp only [beBytes8, List.drop, List.take, List.map_cons, List.map_nil,
        List.mem_cons, List.not_mem_nil, or_false] at hp
      rcases hp with rfl | rfl | rfl | rfl | rfl | rfl <;>
        exact isMacOctet_toHex2 _ (by omega)

/-- Concrete instance of the round-trip, at the address of the repository's
own test: `"00:02:B0:57:7D:D6"`. -/
theorem C6_mac_roundtrip_witness :
    ∃ v, mac_string_to_u64 (List.intercalate [':']
        [['0', '0'], ['0', '2'], ['B', '0'], ['5', '7'], ['7', 'D'], ['D', '6']])
      = some v
      ∧ v < 2 ^ 48
      ∧ mac_u64_to_string v = List.intercalate [':']
        [['0', '0'], ['0', '2'], ['B', '0'], ['5', '7'], ['7', 'D'], ['D', '6']] :=
  C6_mac_roundtrip.1
    [['0', '0'], ['0', '2'], ['B', '0'], ['5', '7'], ['7', 'D'], ['D', '6']]
    rfl (by decide)

end BluetoothClassic
